import Mathlib

/-!
Shallow embedding of the core of the `banking` repository
(src/banking/account.py, src/banking/ledger.py, src/banking/application.py).

Modelling conventions:
* Python floats become rationals; dates become integers (only their linear
  order and equality are used by the code).
* Python exceptions become `Except Err`; a failed `assert` is the error
  `Err.assertionError`, a `TypeError` raised by a call with the wrong number
  of positional arguments is `Err.typeError`.
* The `uuid4()` fresh-id generation is modelled by passing the fresh id
  explicitly as an extra first argument.
* Dynamic dispatch over the four account classes is modelled by a class tag
  carried by each account value; each overriding method matches on the tag
  exactly as Python resolves the override.
* Pickle persistence (`Ledger.persist` / `Ledger.load`) is file input/output
  and is not modelled; every claim below is about the in-memory store.
-/

namespace Banking

deriving instance DecidableEq for Except

/-- Calendar dates, encoded as integers; the code only compares dates. -/
abbrev Date := Int

/-- Python builtin `abs` on a number. -/
def pyAbs (q : ℚ) : ℚ :=
  if q < 0 then -q else q

/-- Kind of a transaction: `Transaction.TransactionType` with members
`CREDIT` and `DEBIT`. -/
inductive TransactionType
  | credit
  | debit
deriving DecidableEq, Repr

/-- A transaction record, as built by `Transaction.__init__`: the fresh
`uuid4()` transaction id is passed in explicitly. -/
structure Transaction where
  transaction_id : Nat
  account_id : Nat
  transaction_type : TransactionType
  amount : ℚ
  occurred_on : Date
deriving DecidableEq, Repr

/-- Python method `Transaction.__radd__(self, other)`: a credit adds its
amount to the accumulator, a debit subtracts it. -/
def Transaction.radd (t : Transaction) (other : ℚ) : ℚ :=
  if t.transaction_type = TransactionType.credit then other + t.amount
  else other - t.amount

/-- Python builtin `sum(transactions)`: left fold of `__radd__` starting
from `0`. -/
def sumTransactions (ts : List Transaction) : ℚ :=
  ts.foldl (fun acc t => t.radd acc) 0

/-- Classmethod `Transaction.create`: builds the transaction record.  The
defaulting of `occurred_on` to the ambient current date happens at the call
sites, which in the modelled code always pass a date. -/
def Transaction.create (fresh_id account_id : Nat) (transaction_type : TransactionType)
    (amount : ℚ) (occurred_on : Date) : Transaction :=
  { transaction_id := fresh_id, account_id := account_id,
    transaction_type := transaction_type, amount := amount, occurred_on := occurred_on }

/-- The four account classes: `BankAccount`, `BankAccount_INT`,
`BankAccount_COVID19`, `BankAccount_COVID19_Company`. -/
inductive AccountClass
  | base
  | int
  | covid
  | company
deriving DecidableEq, Repr

/-- Python `isinstance(x, parent)` over the class hierarchy
`BankAccount <- BankAccount_INT` and
`BankAccount <- BankAccount_COVID19 <- BankAccount_COVID19_Company`. -/
def isinstance (c parent : AccountClass) : Bool :=
  match parent, c with
  | .base, _ => true
  | .int, .int => true
  | .covid, .covid => true
  | .covid, .company => true
  | .company, .company => true
  | _, _ => false

/-- Class constant `MINIMUM_ACCOUNT_BALANCE`: `0` on `BankAccount`,
overridden to `5000` on `BankAccount_COVID19_Company`. -/
def MINIMUM_ACCOUNT_BALANCE (c : AccountClass) : ℚ :=
  match c with
  | .company => 5000
  | _ => 0

/-- Class constant `BankAccount_COVID19.MAX_DAILY_WITHDRAWAL = 1000`. -/
def MAX_DAILY_WITHDRAWAL : ℚ := 1000

/-- Class constant `BankAccount_COVID19.RESTRICTION_DATE`, the parsed date
April 1, 2020, here in the integer date encoding. -/
def RESTRICTION_DATE : Date := 20200401

/-- The errors the modelled code can raise.  `assertionError` is a failed
Python `assert`; `typeError` is a `TypeError` from a call with the wrong
number of positional arguments; `exception` is the bare
`Exception("Invalid account type")`; the rest are the classes of
src/banking/error.py. -/
inductive Err
  | assertionError
  | typeError
  | exception
  | accountError
  | insufficientFund
  | closingCompanyAccount
  | dailyWithdrawalLimit
  | atmWithdrawalNotAllowed
  | accountNotFound
deriving DecidableEq, Repr

/-- A positional argument value, for modelling Python call semantics at the
one call site that mis-calls a constructor. -/
inductive PyVal
  | vId (u : Nat)
  | vRat (q : ℚ)
  | vDate (d : Date)
deriving DecidableEq, Repr

/-- A bank-account object: its class tag, its `uuid4()` id, and whatever
value was bound to the `opened_on` parameter of `BankAccount.__init__`. -/
structure BankAccount where
  cls : AccountClass
  account_id : Nat
  opened_on : PyVal
deriving DecidableEq, Repr

/-- Python call semantics for `account_class(args...)`: `BankAccount.__init__`
(inherited unchanged by every subclass) accepts exactly one positional
argument after `self`, which it binds as `opened_on`; a call with any other
number of positional arguments raises `TypeError` before the body runs.
The fresh `uuid4()` account id is passed explicitly. -/
def AccountClass.call (cls : AccountClass) (fresh_id : Nat) (args : List PyVal) :
    Except Err BankAccount :=
  match args with
  | [a] => Except.ok { cls := cls, account_id := fresh_id, opened_on := a }
  | _ => Except.error Err.typeError

/-- Classmethod `BankAccount.open(opened_on)`: calls the constructor with
the single keyword argument `opened_on`, which always succeeds. -/
def BankAccount.openAccount (cls : AccountClass) (fresh_id : Nat) (opened_on : Date) :
    BankAccount :=
  { cls := cls, account_id := fresh_id, opened_on := PyVal.vDate opened_on }

/-- Method `BankAccount.assert_can_withdraw` (the base implementation):
`assert amount > 0`, then raise `InsufficientFundError` when
`current_balance - amount < self.MINIMUM_ACCOUNT_BALANCE`. -/
def BankAccount.assert_can_withdraw_base (self : BankAccount) (amount current_balance : ℚ) :
    Except Err Unit :=
  if ¬ (amount > 0) then Except.error Err.assertionError
  else if current_balance - amount < MINIMUM_ACCOUNT_BALANCE self.cls then
    Except.error Err.insufficientFund
  else Except.ok ()

/-- Method `BankAccount_COVID19.assert_can_withdraw`: first the base check
via `super()`, then, only when `occurring_on >= RESTRICTION_DATE`: raise
`ATMWithdrawalNotAllowedError` when `is_atm`, else raise
`DailyWithdrawalLimitError` when
`total_daily_amount_withdrawn + amount > MAX_DAILY_WITHDRAWAL`. -/
def BankAccount.assert_can_withdraw_covid (self : BankAccount) (amount current_balance : ℚ)
    (is_atm : Bool) (occurring_on : Date) (total_daily_amount_withdrawn : ℚ) :
    Except Err Unit :=
  match self.assert_can_withdraw_base amount current_balance with
  | Except.error e => Except.error e
  | Except.ok _ =>
    if occurring_on ≥ RESTRICTION_DATE then
      if is_atm then Except.error Err.atmWithdrawalNotAllowed
      else if total_daily_amount_withdrawn + amount > MAX_DAILY_WITHDRAWAL then
        Except.error Err.dailyWithdrawalLimit
      else Except.ok ()
    else Except.ok ()

/-- Dynamic dispatch of `assert_can_withdraw`: `BankAccount` and
`BankAccount_INT` use the base implementation; `BankAccount_COVID19` and
`BankAccount_COVID19_Company` use the covid override. -/
def BankAccount.assert_can_withdraw (self : BankAccount) (amount current_balance : ℚ)
    (is_atm : Bool) (occurring_on : Date) (total_daily_amount_withdrawn : ℚ) :
    Except Err Unit :=
  match self.cls with
  | .base | .int => self.assert_can_withdraw_base amount current_balance
  | .covid | .company =>
      self.assert_can_withdraw_covid amount current_balance is_atm occurring_on
        total_daily_amount_withdrawn

/-- Method `BankAccount.withdraw`: validate through `assert_can_withdraw`,
then build a DEBIT transaction via `Transaction.create`. -/
def BankAccount.withdraw (self : BankAccount) (fresh_id : Nat) (amount current_balance : ℚ)
    (is_atm : Bool) (occurring_on : Date) (total_daily_amount_withdrawn : ℚ) :
    Except Err Transaction :=
  match self.assert_can_withdraw amount current_balance is_atm occurring_on
      total_daily_amount_withdrawn with
  | Except.error e => Except.error e
  | Except.ok _ =>
    Except.ok (Transaction.create fresh_id self.account_id TransactionType.debit amount occurring_on)

/-- Method `BankAccount.deposit` (base implementation): `assert amount > 0`,
then build a CREDIT transaction. -/
def BankAccount.deposit_base (self : BankAccount) (fresh_id : Nat)
    (amount _current_balance : ℚ) (occurring_on : Date) : Except Err Transaction :=
  if ¬ (amount > 0) then Except.error Err.assertionError
  else Except.ok
    (Transaction.create fresh_id self.account_id TransactionType.credit amount occurring_on)

/-- Dynamic dispatch of `deposit`: `BankAccount_COVID19_Company` first raises
`AccountError` when `current_balance == 0 and amount < MINIMUM_ACCOUNT_BALANCE`,
then falls through to the base deposit via `super()`; all other classes use
the base deposit directly. -/
def BankAccount.deposit (self : BankAccount) (fresh_id : Nat) (amount current_balance : ℚ)
    (occurring_on : Date) : Except Err Transaction :=
  match self.cls with
  | .company =>
      if current_balance = 0 ∧ amount < MINIMUM_ACCOUNT_BALANCE AccountClass.company then
        Except.error Err.accountError
      else self.deposit_base fresh_id amount current_balance occurring_on
  | _ => self.deposit_base fresh_id amount current_balance occurring_on

/-- Method `BankAccount.close` (base implementation): when
`current_balance > 0`, withdraw the full balance (non-ATM) and return the
transaction; otherwise return `None`. -/
def BankAccount.close_base (self : BankAccount) (fresh_id : Nat) (current_balance : ℚ)
    (occurring_on : Date) (total_daily_amount_withdrawn : ℚ) :
    Except Err (Option Transaction) :=
  if current_balance > 0 then
    match self.withdraw fresh_id current_balance current_balance false occurring_on
        total_daily_amount_withdrawn with
    | Except.error e => Except.error e
    | Except.ok t => Except.ok (Option.some t)
  else Except.ok Option.none

/-- Dynamic dispatch of `close`: `BankAccount_COVID19_Company.close`
unconditionally raises `ClosingCompanyAccountError`; every other class uses
the base close. -/
def BankAccount.close (self : BankAccount) (fresh_id : Nat) (current_balance : ℚ)
    (occurring_on : Date) (total_daily_amount_withdrawn : ℚ) :
    Except Err (Option Transaction) :=
  match self.cls with
  | .company => Except.error Err.closingCompanyAccount
  | _ => self.close_base fresh_id current_balance occurring_on total_daily_amount_withdrawn

/-- Assignment `m[k] = v` on a Python ordered dict: overwrite in place when
the key is present, else append at the end. -/
def odSet {α : Type} (m : List (Nat × α)) (k : Nat) (v : α) : List (Nat × α) :=
  if m.any (fun p => p.1 = k) then m.map (fun p => if p.1 = k then (k, v) else p)
  else m ++ [(k, v)]

/-- Lookup `m[k]` on a Python ordered dict, as an `Option`. -/
def odGet {α : Type} (m : List (Nat × α)) (k : Nat) : Option α :=
  (m.find? (fun p => p.1 = k)).map Prod.snd

/-- Deletion `del m[k]` on a Python ordered dict (the caller checks presence). -/
def odDel {α : Type} (m : List (Nat × α)) (k : Nat) : List (Nat × α) :=
  m.filter (fun p => p.1 ≠ k)

/-- The in-memory store of `Ledger`: the ordered dict `accounts` maps an
account id to the STORED CLASS `type(obj)` of the account (as written by
`save_to_store`), and the ordered dict `transactions` maps a transaction id
to the transaction object. -/
structure Ledger where
  accounts : List (Nat × AccountClass)
  transactions : List (Nat × Transaction)
deriving DecidableEq, Repr

/-- `Ledger.save_to_store` on a `BankAccount`:
`store["accounts"][obj.account_id] = type(obj)`. -/
def Ledger.save_account (l : Ledger) (a : BankAccount) : Ledger :=
  { l with accounts := odSet l.accounts a.account_id a.cls }

/-- `Ledger.save_to_store` on a `Transaction`:
`store["transactions"][obj.transaction_id] = obj`. -/
def Ledger.save_transaction (l : Ledger) (t : Transaction) : Ledger :=
  { l with transactions := odSet l.transactions t.transaction_id t }

/-- The list `store["transactions"].values()` in insertion order. -/
def Ledger.txnValues (l : Ledger) : List Transaction :=
  l.transactions.map Prod.snd

/-- `Ledger.get_account_balance`: collect the transactions whose
`account_id` matches, then `sum` them through `__radd__`. -/
def Ledger.get_account_balance (l : Ledger) (account_id : Nat) : ℚ :=
  sumTransactions (l.txnValues.filter (fun t => decide (t.account_id = account_id)))

/-- `Ledger.get_total_withdrawn_amount_by_date`: collect the DEBIT
transactions whose `account_id` matches, then return the absolute value of
their `__radd__` sum.  NOTE: exactly as in the source, the `date` parameter
is never consulted by the body. -/
def Ledger.get_total_withdrawn_amount_by_date (l : Ledger) (account_id : Nat)
    (_date : Date) : ℚ :=
  pyAbs (sumTransactions (l.txnValues.filter
    (fun t => decide (t.transaction_type = TransactionType.debit) &&
      decide (t.account_id = account_id))))

/-- `Ledger.get_account`: look the id up in `store["accounts"]` (a
`KeyError`, caught, becomes `AccountNotFoundError`); on a hit, derive the
current balance and the amount withdrawn today and call the stored class
with the three positional arguments
`(account_id, current_balance, amount_withdrawn_today)` — a call whose
outcome follows `AccountClass.call`.  The `TypeError` of that call is not a
`KeyError`, so the `except` clause does not catch it. -/
def Ledger.get_account (l : Ledger) (fresh_id account_id : Nat) (current_date : Date) :
    Except Err BankAccount :=
  match odGet l.accounts account_id with
  | Option.none => Except.error Err.accountNotFound
  | Option.some account_class =>
      let current_balance := l.get_account_balance account_id
      let amount_withdrawn_today :=
        l.get_total_withdrawn_amount_by_date account_id current_date
      account_class.call fresh_id
        [PyVal.vId account_id, PyVal.vRat current_balance, PyVal.vRat amount_withdrawn_today]

/-- `Ledger.close_account`: `del store["accounts"][account_id]`; the
`KeyError` on a missing key, caught, becomes `AccountNotFoundError`. -/
def Ledger.close_account (l : Ledger) (account_id : Nat) : Except Err Ledger :=
  if l.accounts.any (fun p => p.1 = account_id) then
    Except.ok { l with accounts := odDel l.accounts account_id }
  else Except.error Err.accountNotFound

/-- Private method `Application.__get_account_type`: an `isinstance` chain
checking `BankAccount_COVID19` first, then `BankAccount_COVID19_Company`,
then `BankAccount_INT`; the fall-through raises a bare `Exception`. -/
def Application.get_account_type (account : BankAccount) : Except Err String :=
  if isinstance account.cls AccountClass.covid then Except.ok "covid"
  else if isinstance account.cls AccountClass.company then Except.ok "company"
  else if isinstance account.cls AccountClass.int then Except.ok "international"
  else Except.error Err.exception

/-- The dict built by `Application.get_account_details`. -/
structure AccountDetails where
  details_account_id : Nat
  details_opened_on : PyVal
  details_balance : ℚ
  details_type : String
deriving DecidableEq, Repr

/-- `Application.get_account_details`: resolve the account through
`Ledger.get_account`, derive the balance, and assemble the result dict with
the type string from `Application.__get_account_type`. -/
def Application.get_account_details (l : Ledger) (fresh_id account_id : Nat)
    (current_date : Date) : Except Err AccountDetails :=
  match l.get_account fresh_id account_id current_date with
  | Except.error e => Except.error e
  | Except.ok account =>
    let balance := l.get_account_balance account_id
    match Application.get_account_type account with
    | Except.error e => Except.error e
    | Except.ok ty => Except.ok ⟨account_id, account.opened_on, balance, ty⟩

/-- `Application.close_account`: resolve the account through
`Ledger.get_account`, derive balance and daily-withdrawn total, run the
policy close, record the transaction when one was produced, then remove the
account from the ledger; returns the optional transaction id. -/
def Application.close_account (l : Ledger) (fresh_resolve_id fresh_txn_id account_id : Nat)
    (current_date : Date) : Except Err (Ledger × Option Nat) :=
  match l.get_account fresh_resolve_id account_id current_date with
  | Except.error e => Except.error e
  | Except.ok account =>
    let current_account_balance := l.get_account_balance account_id
    let amount_withdrawn_today :=
      l.get_total_withdrawn_amount_by_date account_id current_date
    match account.close fresh_txn_id current_account_balance current_date
        amount_withdrawn_today with
    | Except.error e => Except.error e
    | Except.ok txn =>
      let l1 := match txn with
        | Option.some t => l.save_transaction t
        | Option.none => l
      match l1.close_account account_id with
      | Except.error e => Except.error e
      | Except.ok l2 => Except.ok (l2, txn.map Transaction.transaction_id)

/-! Helper definitions and lemmas for the claim theorems. -/

/-- Sum of the amounts of the CREDIT transactions of a list. -/
def creditSum (ts : List Transaction) : ℚ :=
  ((ts.filter (fun t => decide (t.transaction_type = TransactionType.credit))).map
    Transaction.amount).sum

/-- Sum of the amounts of the DEBIT transactions of a list. -/
def debitSum (ts : List Transaction) : ℚ :=
  ((ts.filter (fun t => decide (t.transaction_type = TransactionType.debit))).map
    Transaction.amount).sum

/-- The specified daily-withdrawal aggregate, written from the spec wording
for comparison with the code: the sum of the amounts of exactly those DEBIT
transactions of the account whose `occurred_on` equals the queried date. -/
def specWithdrawnByDate (l : Ledger) (account_id : Nat) (d : Date) : ℚ :=
  ((l.txnValues.filter (fun t => decide (t.transaction_type = TransactionType.debit) &&
      decide (t.account_id = account_id) && decide (t.occurred_on = d))).map
    Transaction.amount).sum

lemma foldl_radd_eq (ts : List Transaction) (s : ℚ) :
    ts.foldl (fun acc t => t.radd acc) s = s + creditSum ts - debitSum ts := by
  induction ts generalizing s with
  | nil => simp [creditSum, debitSum]
  | cons t ts ih =>
      rw [List.foldl_cons, ih]
      rcases h : t.transaction_type with _ | _ <;>
        simp [Transaction.radd, creditSum, debitSum, h, List.filter_cons] <;> ring

lemma sumTransactions_eq (ts : List Transaction) :
    sumTransactions ts = creditSum ts - debitSum ts := by
  simpa using foldl_radd_eq ts 0

lemma sumTransactions_perm {ts us : List Transaction} (h : ts.Perm us) :
    sumTransactions ts = sumTransactions us := by
  rw [sumTransactions_eq, sumTransactions_eq]
  have hc : creditSum ts = creditSum us := by
    unfold creditSum
    exact ((h.filter _).map _).sum_eq
  have hd : debitSum ts = debitSum us := by
    unfold debitSum
    exact ((h.filter _).map _).sum_eq
  rw [hc, hd]

lemma odGet_odDel_self {α : Type} (m : List (Nat × α)) (k : Nat) :
    odGet (odDel m k) k = Option.none := by
  unfold odGet odDel
  rw [Option.map_eq_none', List.find?_eq_none]
  intro p hp
  have := List.of_mem_filter hp
  simpa using this

lemma assert_base_insufficient (a : BankAccount) (amount balance : ℚ)
    (hpos : 0 < amount) (h : balance - amount < MINIMUM_ACCOUNT_BALANCE a.cls) :
    a.assert_can_withdraw_base amount balance = Except.error Err.insufficientFund := by
  unfold BankAccount.assert_can_withdraw_base
  rw [if_neg (by simpa using hpos), if_pos h]

lemma assert_base_ok (a : BankAccount) (amount balance : ℚ)
    (hpos : 0 < amount) (h : MINIMUM_ACCOUNT_BALANCE a.cls ≤ balance - amount) :
    a.assert_can_withdraw_base amount balance = Except.ok () := by
  unfold BankAccount.assert_can_withdraw_base
  rw [if_neg (by simpa using hpos), if_neg (by simpa using h)]

/-! The claim theorems. -/

/-- C4: for a restricted-tier withdrawal whose amount both breaches the
minimum-balance rule and breaches a date-gated rule (ATM on/after the
restriction date, or daily total over the limit), the operation fails with
`InsufficientFundError`: the base insufficient-funds check runs before the
date-gated checks. -/
theorem C4_insufficient_funds_reported_first (a : BankAccount) (fresh_id : Nat)
    (amount balance daily : ℚ) (is_atm : Bool) (d : Date)
    (hres : a.cls = AccountClass.covid ∨ a.cls = AccountClass.company)
    (hpos : 0 < amount)
    (hinsuf : balance - amount < MINIMUM_ACCOUNT_BALANCE a.cls)
    (hdate : RESTRICTION_DATE ≤ d)
    (hgate : is_atm = true ∨ MAX_DAILY_WITHDRAWAL < daily + amount) :
    a.withdraw fresh_id amount balance is_atm d daily =
      Except.error Err.insufficientFund := by
  have hBase := assert_base_insufficient a amount balance hpos hinsuf
  unfold BankAccount.withdraw BankAccount.assert_can_withdraw
  rcases hres with h | h <;> rw [h] <;>
    simp [BankAccount.assert_can_withdraw_covid, ← h, hBase]

/-- C4 witness: a covid-tier withdrawal of 600 from balance 500 by ATM on
the restriction date with 2000 already withdrawn reports insufficient
funds. -/
theorem C4_insufficient_funds_reported_first_witness :
    BankAccount.withdraw ⟨AccountClass.covid, 1, PyVal.vDate 0⟩ 50 600 500 true
      RESTRICTION_DATE 2000 = Except.error Err.insufficientFund :=
  C4_insufficient_funds_reported_first ⟨AccountClass.covid, 1, PyVal.vDate 0⟩ 50
    600 500 2000 true RESTRICTION_DATE (Or.inl rfl) (by norm_num)
    (by norm_num [MINIMUM_ACCOUNT_BALANCE]) le_rfl (Or.inl rfl)

/-- C6: closing a company-tier account fails with
`ClosingCompanyAccountError` for every balance (zero included) and every
date, and produces no transaction. -/
theorem C6_company_close_always_fails (a : BankAccount) (fresh_id : Nat)
    (balance daily : ℚ) (d : Date) (h : a.cls = AccountClass.company) :
    a.close fresh_id balance d daily = Except.error Err.closingCompanyAccount := by
  unfold BankAccount.close
  rw [h]

/-- C6 witness: closing a company account with balance 0 fails. -/
theorem C6_company_close_always_fails_witness :
    BankAccount.close ⟨AccountClass.company, 2, PyVal.vDate 0⟩ 50 0 0 0 =
      Except.error Err.closingCompanyAccount :=
  C6_company_close_always_fails ⟨AccountClass.company, 2, PyVal.vDate 0⟩ 50 0 0 0 rfl

/-- C7: on a company-tier account with derived balance 0, a deposit below
the 5000 minimum fails with `AccountError` and produces no transaction,
while a deposit of at least the minimum succeeds; when the balance is
nonzero the floor does not apply and any positive deposit succeeds. -/
theorem C7_company_first_deposit_floor (a : BankAccount) (fresh_id : Nat)
    (amount balance : ℚ) (d : Date) (h : a.cls = AccountClass.company) :
    (balance = 0 → amount < MINIMUM_ACCOUNT_BALANCE AccountClass.company →
      a.deposit fresh_id amount balance d = Except.error Err.accountError) ∧
    (balance = 0 → MINIMUM_ACCOUNT_BALANCE AccountClass.company ≤ amount →
      a.deposit fresh_id amount balance d =
        Except.ok (Transaction.create fresh_id a.account_id TransactionType.credit amount d)) ∧
    (balance ≠ 0 → 0 < amount →
      a.deposit fresh_id amount balance d =
        Except.ok (Transaction.create fresh_id a.account_id TransactionType.credit amount d)) := by
  unfold BankAccount.deposit
  rw [h]
  refine ⟨fun hb hlt => ?_, fun hb hge => ?_, fun hb hpos => ?_⟩
  · rw [if_pos ⟨hb, hlt⟩]
  · have h5000 : (5000 : ℚ) ≤ amount := by
      simpa [MINIMUM_ACCOUNT_BALANCE] using hge
    rw [if_neg (by simp [hb]; exact hge)]
    unfold BankAccount.deposit_base
    rw [if_neg (by simp; linarith)]
  · rw [if_neg (by simp [hb])]
    unfold BankAccount.deposit_base
    rw [if_neg (by simpa using hpos)]

/-- C7 witness: at balance 0 a deposit of 4999 fails with `AccountError`,
a deposit of 5000 succeeds, and at balance 100 a deposit of 1 succeeds. -/
theorem C7_company_first_deposit_floor_witness :
    BankAccount.deposit ⟨AccountClass.company, 2, PyVal.vDate 0⟩ 50 4999 0 0 =
      Except.error Err.accountError ∧
    BankAccount.deposit ⟨AccountClass.company, 2, PyVal.vDate 0⟩ 50 5000 0 0 =
      Except.ok (Transaction.create 50 2 TransactionType.credit 5000 0) ∧
    BankAccount.deposit ⟨AccountClass.company, 2, PyVal.vDate 0⟩ 50 1 100 0 =
      Except.ok (Transaction.create 50 2 TransactionType.credit 1 0) :=
  ⟨(C7_company_first_deposit_floor ⟨AccountClass.company, 2, PyVal.vDate 0⟩ 50 4999 0 0
      rfl).1 rfl (by norm_num [MINIMUM_ACCOUNT_BALANCE]),
   (C7_company_first_deposit_floor ⟨AccountClass.company, 2, PyVal.vDate 0⟩ 50 5000 0 0
      rfl).2.1 rfl (by norm_num [MINIMUM_ACCOUNT_BALANCE]),
   (C7_company_first_deposit_floor ⟨AccountClass.company, 2, PyVal.vDate 0⟩ 50 1 100 0
      rfl).2.2 (by norm_num) (by norm_num)⟩

/-- C8: on a restricted-tier account, an ATM-method withdrawal dated on or
after the restriction date fails with `ATMWithdrawalNotAllowedError`, for
every positive amount with sufficient funds and any daily total within the
limit. -/
theorem C8_atm_blocked_on_or_after_restriction (a : BankAccount) (fresh_id : Nat)
    (amount balance daily : ℚ) (d : Date)
    (hres : a.cls = AccountClass.covid ∨ a.cls = AccountClass.company)
    (hpos : 0 < amount)
    (hfunds : MINIMUM_ACCOUNT_BALANCE a.cls ≤ balance - amount)
    (hdaily : daily ≤ MAX_DAILY_WITHDRAWAL)
    (hdate : RESTRICTION_DATE ≤ d) :
    a.withdraw fresh_id amount balance true d daily =
      Except.error Err.atmWithdrawalNotAllowed := by
  have hBase := assert_base_ok a amount balance hpos hfunds
  unfold BankAccount.withdraw BankAccount.assert_can_withdraw
  rcases hres with h | h <;> rw [h] <;>
    simp [BankAccount.assert_can_withdraw_covid, ← h, hBase, hdate]

/-- C8 witness: a covid-tier ATM withdrawal of 10 from balance 200 on the
restriction date with daily total 0 fails with the ATM error. -/
theorem C8_atm_blocked_on_or_after_restriction_witness :
    BankAccount.withdraw ⟨AccountClass.covid, 1, PyVal.vDate 0⟩ 50 10 200 true
      RESTRICTION_DATE 0 = Except.error Err.atmWithdrawalNotAllowed :=
  C8_atm_blocked_on_or_after_restriction ⟨AccountClass.covid, 1, PyVal.vDate 0⟩ 50
    10 200 0 RESTRICTION_DATE (Or.inl rfl) (by norm_num)
    (by norm_num [MINIMUM_ACCOUNT_BALANCE]) (by norm_num [MAX_DAILY_WITHDRAWAL]) le_rfl

/-- C5 counterexample: on a covid-tier account the claimed boundary
withdrawal of exactly `balance - minimumBalance` (here 500 - 0) does NOT
succeed when it is an ATM withdrawal dated on the restriction date — it
fails with the ATM error, refuting the unconditional claim. -/
theorem C5_boundary_counterexample :
    BankAccount.withdraw ⟨AccountClass.covid, 1, PyVal.vDate 0⟩ 50 500 500 true
      RESTRICTION_DATE 0 = Except.error Err.atmWithdrawalNotAllowed := by
  norm_num [BankAccount.withdraw, BankAccount.assert_can_withdraw,
    BankAccount.assert_can_withdraw_covid, BankAccount.assert_can_withdraw_base,
    MINIMUM_ACCOUNT_BALANCE]

/-- C5 amended: the boundary cases succeed once the other rules do not
independently reject the withdrawal.  For every tier, a positive withdrawal
of exactly `balance - minimumBalance` succeeds provided that, on a
restricted tier dated on/after the restriction date, it is not by ATM and
stays within the daily limit (the insufficient-funds violation is strict
`<`); and on a restricted tier a non-ATM withdrawal on/after the
restriction date with `daily + amount` exactly equal to the maximum daily
withdrawal succeeds provided funds are sufficient (the limit violation is
strict `>`). -/
theorem C5_boundaries_amended (a : BankAccount) (fresh_id : Nat) :
    (∀ (amount balance daily : ℚ) (is_atm : Bool) (d : Date),
      0 < amount → amount = balance - MINIMUM_ACCOUNT_BALANCE a.cls →
      ((a.cls = AccountClass.covid ∨ a.cls = AccountClass.company) →
        RESTRICTION_DATE ≤ d →
        is_atm = false ∧ daily + amount ≤ MAX_DAILY_WITHDRAWAL) →
      a.withdraw fresh_id amount balance is_atm d daily =
        Except.ok (Transaction.create fresh_id a.account_id TransactionType.debit amount d)) ∧
    (∀ (amount balance daily : ℚ) (d : Date),
      (a.cls = AccountClass.covid ∨ a.cls = AccountClass.company) →
      0 < amount → MINIMUM_ACCOUNT_BALANCE a.cls ≤ balance - amount →
      RESTRICTION_DATE ≤ d → daily + amount = MAX_DAILY_WITHDRAWAL →
      a.withdraw fresh_id amount balance false d daily =
        Except.ok (Transaction.create fresh_id a.account_id TransactionType.debit amount d)) := by
  constructor
  · intro amount balance daily is_atm d hpos heq hgate
    have hBase : a.assert_can_withdraw_base amount balance = Except.ok () :=
      assert_base_ok a amount balance hpos (by rw [heq]; linarith)
    unfold BankAccount.withdraw BankAccount.assert_can_withdraw
    rcases hc : a.cls with _ | _ | _ | _
    · simp [hBase]
    · simp [hBase]
    · unfold BankAccount.assert_can_withdraw_covid
      rw [hBase]
      by_cases hd : RESTRICTION_DATE ≤ d
      · obtain ⟨hatm, hlim⟩ := hgate (Or.inl hc) hd
        subst hatm
        simp [hd, not_lt.mpr hlim]
      · simp [hd]
    · unfold BankAccount.assert_can_withdraw_covid
      rw [hBase]
      by_cases hd : RESTRICTION_DATE ≤ d
      · obtain ⟨hatm, hlim⟩ := hgate (Or.inr hc) hd
        subst hatm
        simp [hd, not_lt.mpr hlim]
      · simp [hd]
  · intro amount balance daily d hres hpos hfunds hdate hlim
    have hBase := assert_base_ok a amount balance hpos hfunds
    unfold BankAccount.withdraw BankAccount.assert_can_withdraw
    rcases hres with h | h <;> rw [h] <;>
      simp [BankAccount.assert_can_withdraw_covid, ← h, hBase, hdate,
        not_lt.mpr hlim.le]

/-- C5 witness: on a covid-tier account, a non-ATM withdrawal of the full
balance 500 on the restriction date succeeds (insufficient-funds boundary),
and a non-ATM withdrawal of 1000 with daily total 0 on the restriction date
succeeds (daily-limit boundary). -/
theorem C5_boundaries_amended_witness :
    BankAccount.withdraw ⟨AccountClass.covid, 1, PyVal.vDate 0⟩ 50 500 500 false
      RESTRICTION_DATE 0 = Except.ok (Transaction.create 50 1 TransactionType.debit 500
        RESTRICTION_DATE) ∧
    BankAccount.withdraw ⟨AccountClass.covid, 1, PyVal.vDate 0⟩ 50 1000 2000 false
      RESTRICTION_DATE 0 = Except.ok (Transaction.create 50 1 TransactionType.debit 1000
        RESTRICTION_DATE) :=
  ⟨(C5_boundaries_amended ⟨AccountClass.covid, 1, PyVal.vDate 0⟩ 50).1 500 500 0 false
      RESTRICTION_DATE (by norm_num) (by norm_num [MINIMUM_ACCOUNT_BALANCE])
      (fun _ _ => ⟨rfl, by norm_num [MAX_DAILY_WITHDRAWAL]⟩),
   (C5_boundaries_amended ⟨AccountClass.covid, 1, PyVal.vDate 0⟩ 50).2 1000 2000 0
      RESTRICTION_DATE (Or.inl rfl) (by norm_num)
      (by norm_num [MINIMUM_ACCOUNT_BALANCE]) le_rfl
      (by norm_num [MAX_DAILY_WITHDRAWAL])⟩

/-- C3 counterexample: a covid-tier (restricted, non-company) account with
derived balance 2000 closed on the restriction date with daily total 0 does
NOT return a Debit transaction of the balance — the close fails with
`DailyWithdrawalLimitError`, refuting the claim for that input. -/
theorem C3_close_counterexample :
    BankAccount.close ⟨AccountClass.covid, 1, PyVal.vDate 0⟩ 50 2000
      RESTRICTION_DATE 0 = Except.error Err.dailyWithdrawalLimit := by
  norm_num [BankAccount.close, BankAccount.close_base, BankAccount.withdraw,
    BankAccount.assert_can_withdraw, BankAccount.assert_can_withdraw_covid,
    BankAccount.assert_can_withdraw_base, MINIMUM_ACCOUNT_BALANCE,
    MAX_DAILY_WITHDRAWAL, RESTRICTION_DATE]

/-- C3 amended: for every non-company account and every date, closing with
derived balance 0 returns no transaction, and closing with derived balance
B > 0 returns exactly one Debit transaction of amount B PROVIDED that, on a
restricted tier dated on/after the restriction date, todaysWithdrawn + B
does not exceed the maximum daily withdrawal; and once the ledger has
removed the account id, resolving that id fails with
`AccountNotFoundError`. -/
theorem C3_close_nonCompany_amended (a : BankAccount) (fresh_id : Nat)
    (B daily : ℚ) (d : Date) (l : Ledger)
    (hcls : a.cls ≠ AccountClass.company)
    (hgate : a.cls = AccountClass.covid → RESTRICTION_DATE ≤ d →
      daily + B ≤ MAX_DAILY_WITHDRAWAL) :
    (B = 0 → a.close fresh_id B d daily = Except.ok Option.none) ∧
    (B > 0 → a.close fresh_id B d daily =
      Except.ok (Option.some (Transaction.create fresh_id a.account_id
        TransactionType.debit B d))) ∧
    (∀ l2, l.close_account a.account_id = Except.ok l2 →
      ∀ (fid : Nat) (d2 : Date),
        l2.get_account fid a.account_id d2 = Except.error Err.accountNotFound) := by
  refine ⟨fun hb => ?_, fun hb => ?_, fun l2 hdel fid d2 => ?_⟩
  · unfold BankAccount.close
    rcases hc : a.cls with _ | _ | _ | _ <;>
      first
        | exact absurd hc hcls
        | · unfold BankAccount.close_base
            rw [if_neg (by rw [hb]; exact lt_irrefl 0)]
  · have hmin : MINIMUM_ACCOUNT_BALANCE a.cls ≤ B - B := by
      rcases hc : a.cls with _ | _ | _ | _ <;>
        simp [MINIMUM_ACCOUNT_BALANCE, hc] <;> exact absurd hc hcls
    have hBase : a.assert_can_withdraw_base B B = Except.ok () :=
      assert_base_ok a B B hb hmin
    unfold BankAccount.close
    rcases hc : a.cls with _ | _ | _ | _
    · unfold BankAccount.close_base BankAccount.withdraw BankAccount.assert_can_withdraw
      rw [if_pos hb, hc]
      simp [hBase]
    · unfold BankAccount.close_base BankAccount.withdraw BankAccount.assert_can_withdraw
      rw [if_pos hb, hc]
      simp [hBase]
    · unfold BankAccount.close_base BankAccount.withdraw BankAccount.assert_can_withdraw
      rw [if_pos hb, hc]
      unfold BankAccount.assert_can_withdraw_covid
      rw [hBase]
      by_cases hd : RESTRICTION_DATE ≤ d
      · simp [hd, not_lt.mpr (hgate hc hd)]
      · simp [hd]
    · exact absurd hc hcls
  · unfold Ledger.close_account at hdel
    by_cases hmem : l.accounts.any (fun p => p.1 = a.account_id)
    · rw [if_pos hmem] at hdel
      have hl2 : l2 = { l with accounts := odDel l.accounts a.account_id } := by
        cases hdel; rfl
      subst hl2
      unfold Ledger.get_account
      rw [show odGet (odDel l.accounts a.account_id) a.account_id = Option.none from
        odGet_odDel_self l.accounts a.account_id]
    · rw [if_neg hmem] at hdel
      cases hdel

/-- C3 witness: closing a covid-tier account with balance 500 on the
restriction date (daily total 0) yields exactly one Debit of 500, and the
account id of a removed account resolves to `AccountNotFoundError`. -/
theorem C3_close_nonCompany_amended_witness :
    BankAccount.close ⟨AccountClass.covid, 1, PyVal.vDate 0⟩ 50 500
      RESTRICTION_DATE 0 = Except.ok (Option.some (Transaction.create 50 1
        TransactionType.debit 500 RESTRICTION_DATE)) ∧
    Ledger.get_account ⟨[], []⟩ 99 1 0 = Except.error Err.accountNotFound :=
  ⟨(C3_close_nonCompany_amended ⟨AccountClass.covid, 1, PyVal.vDate 0⟩ 50 500 0
      RESTRICTION_DATE ⟨[(1, AccountClass.covid)], []⟩ (by decide)
      (fun _ _ => by norm_num [MAX_DAILY_WITHDRAWAL])).2.1 (by norm_num),
   (C3_close_nonCompany_amended ⟨AccountClass.covid, 1, PyVal.vDate 0⟩ 50 500 0
      RESTRICTION_DATE ⟨[(1, AccountClass.covid)], []⟩ (by decide)
      (fun _ _ => by norm_num [MAX_DAILY_WITHDRAWAL])).2.2 ⟨[], []⟩ rfl 99 0⟩

/-- C9: `Ledger.get_account_balance` equals the sum of the credit amounts
minus the sum of the debit amounts of the transactions recorded against the
account, and is invariant under reordering of the recorded transaction
log. -/
theorem C9_balance_sum_order_independent :
    (∀ (l : Ledger) (account_id : Nat),
      l.get_account_balance account_id =
        creditSum (l.txnValues.filter (fun t => decide (t.account_id = account_id))) -
        debitSum (l.txnValues.filter (fun t => decide (t.account_id = account_id)))) ∧
    (∀ (l1 l2 : Ledger) (account_id : Nat),
      l1.txnValues.Perm l2.txnValues →
      l1.get_account_balance account_id = l2.get_account_balance account_id) := by
  constructor
  · intro l account_id
    unfold Ledger.get_account_balance
    exact sumTransactions_eq _
  · intro l1 l2 account_id h
    unfold Ledger.get_account_balance
    exact sumTransactions_perm (h.filter _)

/-- C9 witness: recording a credit of 7 and a debit of 3 in either order
gives the same balance for the account. -/
theorem C9_balance_sum_order_independent_witness :
    Ledger.get_account_balance
        ⟨[], [(10, ⟨10, 1, TransactionType.credit, 7, 0⟩),
              (11, ⟨11, 1, TransactionType.debit, 3, 0⟩)]⟩ 1 =
      Ledger.get_account_balance
        ⟨[], [(11, ⟨11, 1, TransactionType.debit, 3, 0⟩),
              (10, ⟨10, 1, TransactionType.credit, 7, 0⟩)]⟩ 1 :=
  C9_balance_sum_order_independent.2 _ _ 1
    (by simp only [Ledger.txnValues, List.map_cons, List.map_nil]
        exact List.Perm.swap _ _ _)

/-- C10: the `isinstance` chain of `Application.__get_account_type` tests
the COVID19 class before its company subclass, so both covid-class and
company-class accounts report the type string `covid`, the string
`company` is never produced, and consequently
`Application.get_account_details` never reports type `company`. -/
theorem C10_account_type_never_company :
    (∀ a : BankAccount,
      a.cls = AccountClass.covid ∨ a.cls = AccountClass.company →
      Application.get_account_type a = Except.ok "covid") ∧
    (∀ a : BankAccount, Application.get_account_type a ≠ Except.ok "company") ∧
    (∀ (l : Ledger) (fresh_id account_id : Nat) (d : Date) (det : AccountDetails),
      Application.get_account_details l fresh_id account_id d = Except.ok det →
      det.details_type ≠ "company") := by
  have h2 : ∀ a : BankAccount, Application.get_account_type a ≠ Except.ok "company" := by
    intro a
    rcases hc : a.cls with _ | _ | _ | _ <;>
      simp [Application.get_account_type, isinstance, hc]
  refine ⟨?_, h2, ?_⟩
  · intro a h
    rcases h with h | h <;> simp [Application.get_account_type, isinstance, h]
  · intro l fresh_id account_id d det h hcontra
    unfold Application.get_account_details at h
    cases hga : l.get_account fresh_id account_id d with
    | error e => rw [hga] at h; cases h
    | ok account =>
      rw [hga] at h
      cases hty : Application.get_account_type account with
      | error e =>
        simp only [hty] at h
        exact Except.noConfusion h
      | ok ty =>
        simp only [hty] at h
        cases h
        have hty2 : ty = "company" := hcontra
        exact h2 account (by rw [hty, hty2])

/-- C10 witness: a company-class account reports the type string covid. -/
theorem C10_account_type_never_company_witness :
    Application.get_account_type ⟨AccountClass.company, 2, PyVal.vDate 0⟩ =
      Except.ok "covid" :=
  C10_account_type_never_company.1 ⟨AccountClass.company, 2, PyVal.vDate 0⟩ (Or.inr rfl)

/-- C1 (documenting the code bug): `Ledger.get_account` calls the stored
account class with three positional arguments while `BankAccount.__init__`
accepts exactly one, so for every id present in the live-account set the
resolve raises an uncaught `TypeError` instead of returning the
reconstructed account; for every absent id it does fail with
`AccountNotFoundError` as the claim states. -/
theorem C1_get_account_raises_type_error (l : Ledger) (fresh_id account_id : Nat)
    (d : Date) :
    (∀ c, odGet l.accounts account_id = Option.some c →
      l.get_account fresh_id account_id d = Except.error Err.typeError) ∧
    (odGet l.accounts account_id = Option.none →
      l.get_account fresh_id account_id d = Except.error Err.accountNotFound) := by
  constructor
  · intro c hc
    unfold Ledger.get_account
    rw [hc]
    simp [AccountClass.call]
  · intro hc
    unfold Ledger.get_account
    rw [hc]

/-- C1 witness: on a ledger holding one live foreign account under id 1,
resolving id 1 raises `TypeError` and resolving the absent id 2 fails with
`AccountNotFoundError`. -/
theorem C1_get_account_raises_type_error_witness :
    Ledger.get_account ⟨[(1, AccountClass.int)], []⟩ 99 1 0 =
      Except.error Err.typeError ∧
    Ledger.get_account ⟨[(1, AccountClass.int)], []⟩ 99 2 0 =
      Except.error Err.accountNotFound :=
  ⟨(C1_get_account_raises_type_error ⟨[(1, AccountClass.int)], []⟩ 99 1 0).1
      AccountClass.int rfl,
   (C1_get_account_raises_type_error ⟨[(1, AccountClass.int)], []⟩ 99 2 0).2 rfl⟩

/-- C2 (documenting the code bug): on the log holding, for account 1, a
debit of 5 dated day 0 and a debit of 7 dated day 1, the code returns 12
for the query date day 0 — it sums ALL the debits of the account, never
consulting its date parameter — while the specified value (sum of the
debits dated day 0 only) is 5.  The non-negativity half of the claim does
hold: the result is an absolute value. -/
theorem C2_withdrawn_by_date_ignores_date :
    Ledger.get_total_withdrawn_amount_by_date
        ⟨[(1, AccountClass.int)],
         [(10, ⟨10, 1, TransactionType.debit, 5, 0⟩),
          (11, ⟨11, 1, TransactionType.debit, 7, 1⟩)]⟩ 1 0 = 12 ∧
    specWithdrawnByDate
        ⟨[(1, AccountClass.int)],
         [(10, ⟨10, 1, TransactionType.debit, 5, 0⟩),
          (11, ⟨11, 1, TransactionType.debit, 7, 1⟩)]⟩ 1 0 = 5 ∧
    (∀ (l : Ledger) (account_id : Nat) (d : Date),
      0 ≤ l.get_total_withdrawn_amount_by_date account_id d) := by
  refine ⟨?_, ?_, ?_⟩
  · simp +decide [Ledger.get_total_withdrawn_amount_by_date, Ledger.txnValues,
      sumTransactions, Transaction.radd, pyAbs]
    norm_num
  · simp +decide [specWithdrawnByDate, Ledger.txnValues]
  · intro l account_id d
    unfold Ledger.get_total_withdrawn_amount_by_date pyAbs
    split
    · linarith
    · linarith

end Banking
